import Mathlib

/-!
# rpp: replace a file's contents with the clipboard text

A verification development for `src/rpp/main.go`.  The program is one `main`
function that talks to the operating system four times (`os.Stat`,
`clipboard.ReadAll`, `os.WriteFile`, standard output) and leaves through
`os.Exit(1)` or by returning.  The embedding passes the state of the world
explicitly: `main` takes the argument vector and a `World`, and returns an
`Outcome` (what was printed, the exit code, the files afterwards, and the
system calls made, in order).

Conventions.
* A Go `string` is a Lean `String`; a Go `[]byte` is a `ByteArray`; the
  conversion `[]byte(content)` is `String.toUTF8`.
* A Go `error` is represented by the text of its `Error()` method, which is
  what `%v` prints.
* `fmt.Printf` with one `%s` or `%v` verb is string concatenation.
* The file system is seen through path lookup (`Lookup`): a path is missing,
  fails to be looked up, or names a directory, a regular file or a special
  file.  Several paths may name one object (`World.link`); a write through
  one of them shows under all of them.
-/

namespace Rpp

/-- What the operating system answers when asked about a path: the cases that
`os.Stat` followed by `os.IsNotExist` and `IsDir` tells apart, with what is
on disk behind each. -/
inductive Lookup where
  /-- There is no such file: `os.Stat` fails and `os.IsNotExist(err)` holds. -/
  | notExist
  /-- The metadata query fails for another reason (permissions, I/O, a
  component of the path that is not a directory); `text` is `err.Error()`,
  and `present` tells whether the path names anything on disk. -/
  | failure (text : String) (present : Bool)
  /-- The path resolves to a directory. -/
  | dir
  /-- The path resolves to a regular file holding `content`. -/
  | file (content : ByteArray)
  /-- The path resolves to a special file that is neither a directory nor a
  regular file and keeps nothing of what is written to it (a device such as
  `/dev/null`). -/
  | special

/-- The path does not exist on disk: either the lookup says so, or the lookup
fails for another reason at a path that names nothing. -/
def Lookup.absent : Lookup → Prop
  | Lookup.notExist => True
  | Lookup.failure _ present => present = false
  | Lookup.dir => False
  | Lookup.file _ => False
  | Lookup.special => False

/-- The state of the world a run starts in. -/
structure World where
  /-- The file system, seen through path lookup. -/
  fs : String → Lookup
  /-- The canonical name of what a path names: two paths name the same object
  (hard links, symbolic links, different spellings) exactly when their
  canonical names are equal. -/
  link : String → String
  /-- What `clipboard.ReadAll()` returns: the text, or the error. -/
  clipboard : Except String String
  /-- Failure of `os.WriteFile`, if any: `none` when the write goes through;
  `some (text, left)` when it returns the error `text`, leaving the target
  in state `left` (untouched, truncated, half written, ...). -/
  writeFault : Option (String × Lookup)

/-- The error value returned by `os.Stat`. -/
structure StatError where
  /-- Whether `os.IsNotExist` recognises the error. -/
  isNotExist : Bool
  /-- The text of `Error()`. -/
  text : String

/-- The part of `os.FileInfo` that the program reads. -/
structure FileInfo where
  /-- The result of `IsDir()`. -/
  isDir : Bool

/-- A call made to the operating system. -/
inductive Effect where
  | stat (name : String)
  | readClipboard
  | writeFile (name : String) (data : ByteArray) (perm : Nat)

/-- What a run leaves behind. -/
structure Outcome where
  /-- Everything printed, in order. -/
  stdout : String
  /-- The exit code of the process. -/
  exitCode : Nat
  /-- The file system after the run. -/
  fs : String → Lookup
  /-- The operating-system calls made, in order. -/
  trace : List Effect

/-- The call `os.Stat(name)`: file information, or an error. -/
def os_Stat (w : World) (name : String) : Except StatError FileInfo :=
  match w.fs name with
  | Lookup.notExist => Except.error ⟨true, "stat " ++ name ++ ": no such file or directory"⟩
  | Lookup.failure text _ => Except.error ⟨false, text⟩
  | Lookup.dir => Except.ok ⟨true⟩
  | Lookup.file _ => Except.ok ⟨false⟩
  | Lookup.special => Except.ok ⟨false⟩

/-- The call `os.WriteFile(name, data, perm)`: the error if any, and the file
system afterwards.  The file is opened for writing, created if missing and
truncated, the data written, the file closed.
* On a regular file, or a path that does not exist, a call that goes through
  leaves a regular file holding exactly `data`, under `name` and under every
  other path that names the same object; all other paths are as before.
* On a special file a call that goes through keeps nothing: the file system
  is as before.
* On a directory, and on a path whose lookup fails, the open fails and the
  file system is as before.
* A call that fails with `w.writeFault` leaves the target as the fault says. -/
def os_WriteFile (w : World) (name : String) (data : ByteArray) (_perm : Nat) :
    Option String × (String → Lookup) :=
  match w.fs name with
  | Lookup.dir => (some ("open " ++ name ++ ": is a directory"), w.fs)
  | Lookup.failure text _ => (some text, w.fs)
  | Lookup.special =>
    match w.writeFault with
    | none => (none, w.fs)
    | some (text, left) => (some text, fun q => if w.link q = w.link name then left else w.fs q)
  | Lookup.notExist | Lookup.file _ =>
    match w.writeFault with
    | none => (none, fun q => if w.link q = w.link name then Lookup.file data else w.fs q)
    | some (text, left) => (some text, fun q => if w.link q = w.link name then left else w.fs q)

/-- The function `main` of `src/rpp/main.go`, on the argument vector `os.Args`
(program name included). -/
def main (os_Args : List String) (w : World) : Outcome :=
  -- 1. Check if a filename argument was provided
  if h : os_Args.length < 2 then
    ⟨"Usage: rpp <filename>" ++ "\n", 1, w.fs, []⟩
  else
    let targetFile := os_Args.get ⟨1, by omega⟩
    -- 2. Verify the target exists and is strictly a file (not a directory)
    match os_Stat w targetFile with
    | Except.error err =>
      if err.isNotExist then
        ⟨"Error: File '" ++ targetFile ++ "' does not exist.\n", 1, w.fs,
          [Effect.stat targetFile]⟩
      else
        ⟨"Error checking file: " ++ err.text ++ "\n", 1, w.fs, [Effect.stat targetFile]⟩
    | Except.ok info =>
      if info.isDir then
        ⟨"Error: '" ++ targetFile ++ "' is a directory, not a file.\n", 1, w.fs,
          [Effect.stat targetFile]⟩
      else
        -- 3. Get content from the clipboard
        match w.clipboard with
        | Except.error err =>
          ⟨"Error reading clipboard: " ++ err ++ "\n", 1, w.fs,
            [Effect.stat targetFile, Effect.readClipboard]⟩
        | Except.ok content =>
          -- 4. Overwrite the file with clipboard content
          match os_WriteFile w targetFile content.toUTF8 0o644 with
          | (some err, fs1) =>
            ⟨"Error writing to file: " ++ err ++ "\n", 1, fs1,
              [Effect.stat targetFile, Effect.readClipboard,
                Effect.writeFile targetFile content.toUTF8 0o644]⟩
          | (none, fs1) =>
            ⟨"Successfully replaced '" ++ targetFile ++ "' with clipboard content.\n", 0, fs1,
              [Effect.stat targetFile, Effect.readClipboard,
                Effect.writeFile targetFile content.toUTF8 0o644]⟩


/-- A text is a single line: it ends with a newline and holds no other
newline character. -/
def isOneLine (s : String) : Prop :=
  s.data.getLast? = some '\n' ∧ s.data.count '\n' = 1

instance (s : String) : Decidable (isOneLine s) := by
  unfold isOneLine; infer_instance

/-- A world with a regular file `notes.txt` holding `old`, the clipboard
holding `new data` and a newline, and no write failure. -/
def notesWorld : World where
  fs := fun q => if q = "notes.txt" then Lookup.file "old".toUTF8 else Lookup.notExist
  link := fun q => q
  clipboard := Except.ok "new data\n"
  writeFault := none

/-- A world with no file at all, a clipboard that cannot be read and a disk
that cannot be written. -/
def bareWorld : World where
  fs := fun _ => Lookup.notExist
  link := fun q => q
  clipboard := Except.error "exit status 1"
  writeFault := some ("no space left on device", Lookup.notExist)

/-- A world with a regular file `notes.txt` and a directory `docs`, where the
clipboard cannot be read. -/
def lockedWorld : World where
  fs := fun q =>
    if q = "notes.txt" then Lookup.file "old".toUTF8
    else if q = "docs" then Lookup.dir
    else Lookup.notExist
  link := fun q => q
  clipboard := Except.error "exit status 1"
  writeFault := none

/-- The world in which a second run on `notes.txt` starts: `notesWorld`,
with the files as the first run left them. -/
def notesWorldAfter : World where
  fs := (main ["rpp", "notes.txt"] notesWorld).fs
  link := fun q => q
  clipboard := Except.ok "new data\n"
  writeFault := none

/-- A world with a regular file `notes.txt`, so that nothing exists at
`notes.txt/child` and the lookup of that path fails because `notes.txt` is
not a directory; the clipboard holds a text. -/
def nestedWorld : World where
  fs := fun q =>
    if q = "notes.txt" then Lookup.file "old".toUTF8
    else if q = "notes.txt/child" then
      Lookup.failure "stat notes.txt/child: not a directory" false
    else Lookup.notExist
  link := fun q => q
  clipboard := Except.ok "new data\n"
  writeFault := none

/-- With fewer than two entries in `os.Args` the run is the usage error. -/
theorem main_short (args : List String) (w : World) (h : args.length < 2) :
    main args w = ⟨"Usage: rpp <filename>" ++ "\n", 1, w.fs, []⟩ := by
  simp [main, h]

/-- The run on a path the lookup does not find. -/
theorem main_notExist (prog p : String) (rest : List String) (w : World)
    (h : w.fs p = Lookup.notExist) :
    main (prog :: p :: rest) w =
      ⟨"Error: File '" ++ p ++ "' does not exist.\n", 1, w.fs, [Effect.stat p]⟩ := by
  simp [main, os_Stat, h]

/-- The run on a path whose metadata query fails. -/
theorem main_failure (prog p : String) (rest : List String) (w : World) (e : String)
    (present : Bool) (h : w.fs p = Lookup.failure e present) :
    main (prog :: p :: rest) w =
      ⟨"Error checking file: " ++ e ++ "\n", 1, w.fs, [Effect.stat p]⟩ := by
  simp [main, os_Stat, h]

/-- The run on a directory. -/
theorem main_dir (prog p : String) (rest : List String) (w : World)
    (h : w.fs p = Lookup.dir) :
    main (prog :: p :: rest) w =
      ⟨"Error: '" ++ p ++ "' is a directory, not a file.\n", 1, w.fs, [Effect.stat p]⟩ := by
  simp [main, os_Stat, h]

/-- The run on a special or regular file when the clipboard read fails. -/
theorem main_clipboardError (prog p : String) (rest : List String) (w : World) (e : String)
    (h : w.fs p = Lookup.special ∨ ∃ old, w.fs p = Lookup.file old)
    (hc : w.clipboard = Except.error e) :
    main (prog :: p :: rest) w =
      ⟨"Error reading clipboard: " ++ e ++ "\n", 1, w.fs,
        [Effect.stat p, Effect.readClipboard]⟩ := by
  rcases h with h | ⟨old, h⟩ <;> simp [main, os_Stat, h, hc]

/-- The run on a special or regular file when the write fails. -/
theorem main_writeError (prog p : String) (rest : List String) (w : World)
    (T e : String) (left : Lookup)
    (h : w.fs p = Lookup.special ∨ ∃ old, w.fs p = Lookup.file old)
    (hc : w.clipboard = Except.ok T) (hw : w.writeFault = some (e, left)) :
    main (prog :: p :: rest) w =
      ⟨"Error writing to file: " ++ e ++ "\n", 1,
        fun q => if w.link q = w.link p then left else w.fs q,
        [Effect.stat p, Effect.readClipboard, Effect.writeFile p T.toUTF8 0o644]⟩ := by
  rcases h with h | ⟨old, h⟩ <;> simp [main, os_Stat, os_WriteFile, h, hc, hw] <;>
    rw [dif_neg (by omega)]

/-- The run on a regular file when every step goes through. -/
theorem main_success (prog p : String) (rest : List String) (w : World)
    (old : ByteArray) (T : String)
    (h : w.fs p = Lookup.file old) (hc : w.clipboard = Except.ok T)
    (hw : w.writeFault = none) :
    main (prog :: p :: rest) w =
      ⟨"Successfully replaced '" ++ p ++ "' with clipboard content.\n", 0,
        fun q => if w.link q = w.link p then Lookup.file T.toUTF8 else w.fs q,
        [Effect.stat p, Effect.readClipboard, Effect.writeFile p T.toUTF8 0o644]⟩ := by
  simp [main, os_Stat, os_WriteFile, h, hc, hw]
  rw [dif_neg (by omega)]

/-- The run on a special file when every step goes through: nothing is
kept. -/
theorem main_success_special (prog p : String) (rest : List String) (w : World) (T : String)
    (h : w.fs p = Lookup.special) (hc : w.clipboard = Except.ok T)
    (hw : w.writeFault = none) :
    main (prog :: p :: rest) w =
      ⟨"Successfully replaced '" ++ p ++ "' with clipboard content.\n", 0, w.fs,
        [Effect.stat p, Effect.readClipboard, Effect.writeFile p T.toUTF8 0o644]⟩ := by
  simp [main, os_Stat, os_WriteFile, h, hc, hw]

/-- Every argument vector with at least two entries is a program name, a path
and the rest. -/
theorem args_shape (args : List String) (h : ¬ args.length < 2) :
    ∃ (prog p : String) (rest : List String), args = prog :: p :: rest := by
  rcases args with _ | ⟨prog, _ | ⟨p, rest⟩⟩
  · simp at h
  · simp at h
  · exact ⟨prog, p, rest, rfl⟩

/-- Every run is one of eight: the usage error, the three outcomes of the
existence and type check, the clipboard error, the write error, or success
on a regular file or on a special file. -/
theorem main_cases (args : List String) (w : World) :
    (args.length < 2 ∧ main args w = ⟨"Usage: rpp <filename>" ++ "\n", 1, w.fs, []⟩) ∨
    ∃ (prog p : String) (rest : List String), args = prog :: p :: rest ∧
      ((w.fs p = Lookup.notExist ∧ main args w =
          ⟨"Error: File '" ++ p ++ "' does not exist.\n", 1, w.fs, [Effect.stat p]⟩) ∨
       (∃ e present, w.fs p = Lookup.failure e present ∧ main args w =
          ⟨"Error checking file: " ++ e ++ "\n", 1, w.fs, [Effect.stat p]⟩) ∨
       (w.fs p = Lookup.dir ∧ main args w =
          ⟨"Error: '" ++ p ++ "' is a directory, not a file.\n", 1, w.fs, [Effect.stat p]⟩) ∨
       (∃ e, (w.fs p = Lookup.special ∨ ∃ old, w.fs p = Lookup.file old) ∧
          w.clipboard = Except.error e ∧ main args w =
          ⟨"Error reading clipboard: " ++ e ++ "\n", 1, w.fs,
            [Effect.stat p, Effect.readClipboard]⟩) ∨
       (∃ T e left, (w.fs p = Lookup.special ∨ ∃ old, w.fs p = Lookup.file old) ∧
          w.clipboard = Except.ok T ∧ w.writeFault = some (e, left) ∧ main args w =
          ⟨"Error writing to file: " ++ e ++ "\n", 1,
            fun q => if w.link q = w.link p then left else w.fs q,
            [Effect.stat p, Effect.readClipboard, Effect.writeFile p T.toUTF8 0o644]⟩) ∨
       (∃ old T, w.fs p = Lookup.file old ∧ w.clipboard = Except.ok T ∧
          w.writeFault = none ∧ main args w =
          ⟨"Successfully replaced '" ++ p ++ "' with clipboard content.\n", 0,
            fun q => if w.link q = w.link p then Lookup.file T.toUTF8 else w.fs q,
            [Effect.stat p, Effect.readClipboard, Effect.writeFile p T.toUTF8 0o644]⟩) ∨
       (∃ T, w.fs p = Lookup.special ∧ w.clipboard = Except.ok T ∧
          w.writeFault = none ∧ main args w =
          ⟨"Successfully replaced '" ++ p ++ "' with clipboard content.\n", 0, w.fs,
            [Effect.stat p, Effect.readClipboard, Effect.writeFile p T.toUTF8 0o644]⟩)) := by
  by_cases hlen : args.length < 2
  · exact Or.inl ⟨hlen, main_short args w hlen⟩
  · obtain ⟨prog, p, rest, rfl⟩ := args_shape args hlen
    refine Or.inr ⟨prog, p, rest, rfl, ?_⟩
    have step : ∀ (ht : w.fs p = Lookup.special ∨ ∃ old, w.fs p = Lookup.file old),
        (∃ e, w.clipboard = Except.error e) ∨
        (∃ T e left, w.clipboard = Except.ok T ∧ w.writeFault = some (e, left)) ∨
        (∃ T, w.clipboard = Except.ok T ∧ w.writeFault = none) := by
      intro _
      cases hc : w.clipboard with
      | error e => exact Or.inl ⟨e, rfl⟩
      | ok T =>
        cases hw : w.writeFault with
        | none => exact Or.inr (Or.inr ⟨T, rfl, rfl⟩)
        | some fault => exact Or.inr (Or.inl ⟨T, fault.1, fault.2, rfl, rfl⟩)
    cases hfs : w.fs p with
    | notExist => exact Or.inl ⟨rfl, main_notExist prog p rest w hfs⟩
    | failure e present =>
      exact Or.inr (Or.inl ⟨e, present, rfl, main_failure prog p rest w e present hfs⟩)
    | dir => exact Or.inr (Or.inr (Or.inl ⟨rfl, main_dir prog p rest w hfs⟩))
    | file old =>
      have ht : w.fs p = Lookup.special ∨ ∃ old, w.fs p = Lookup.file old := Or.inr ⟨old, hfs⟩
      rcases step ht with ⟨e, hc⟩ | ⟨T, e, left, hc, hw⟩ | ⟨T, hc, hw⟩
      · exact Or.inr (Or.inr (Or.inr (Or.inl
          ⟨e, Or.inr ⟨old, rfl⟩, hc, main_clipboardError prog p rest w e ht hc⟩)))
      · exact Or.inr (Or.inr (Or.inr (Or.inr (Or.inl
          ⟨T, e, left, Or.inr ⟨old, rfl⟩, hc, hw,
            main_writeError prog p rest w T e left ht hc hw⟩))))
      · exact Or.inr (Or.inr (Or.inr (Or.inr (Or.inr (Or.inl
          ⟨old, T, rfl, hc, hw, main_success prog p rest w old T hfs hc hw⟩)))))
    | special =>
      have ht : w.fs p = Lookup.special ∨ ∃ old, w.fs p = Lookup.file old := Or.inl hfs
      rcases step ht with ⟨e, hc⟩ | ⟨T, e, left, hc, hw⟩ | ⟨T, hc, hw⟩
      · exact Or.inr (Or.inr (Or.inr (Or.inl
          ⟨e, Or.inl rfl, hc, main_clipboardError prog p rest w e ht hc⟩)))
      · exact Or.inr (Or.inr (Or.inr (Or.inr (Or.inl
          ⟨T, e, left, Or.inl rfl, hc, hw,
            main_writeError prog p rest w T e left ht hc hw⟩))))
      · exact Or.inr (Or.inr (Or.inr (Or.inr (Or.inr (Or.inr
          ⟨T, rfl, hc, hw, main_success_special prog p rest w T hfs hc hw⟩)))))

/-- The exit code is 0 exactly when there is a path argument, the path is a
special or regular file, the clipboard is read and the write goes through. -/
theorem exitCode_zero_iff (args : List String) (w : World) :
    (main args w).exitCode = 0 ↔
      ∃ (prog p : String) (rest : List String) (T : String),
        args = prog :: p :: rest ∧ (w.fs p = Lookup.special ∨ ∃ old, w.fs p = Lookup.file old) ∧
        w.clipboard = Except.ok T ∧ w.writeFault = none := by
  constructor
  · intro h0
    rcases main_cases args w with ⟨-, h⟩ | ⟨prog, p, rest, hargs, h | ⟨e, present, -, h⟩ | h |
      ⟨e, -, -, h⟩ | ⟨T, e, left, -, -, -, h⟩ | ⟨old, T, hfs, hc, hw, h⟩ | ⟨T, hfs, hc, hw, h⟩⟩
    · simp [h] at h0
    · simp [h.2] at h0
    · simp [h] at h0
    · simp [h.2] at h0
    · simp [h] at h0
    · simp [h] at h0
    · exact ⟨prog, p, rest, T, hargs, Or.inr ⟨old, hfs⟩, hc, hw⟩
    · exact ⟨prog, p, rest, T, hargs, Or.inl hfs, hc, hw⟩
  · rintro ⟨prog, p, rest, T, rfl, hfs | ⟨old, hfs⟩, hc, hw⟩
    · rw [main_success_special prog p rest w T hfs hc hw]
    · rw [main_success prog p rest w old T hfs hc hw]

/-- The first character of a text is the first character of what it starts
with. -/
theorem head_append (a b : String) (c : Char) (h : a.data.head? = some c) :
    (a ++ b).data.head? = some c := by
  rw [String.data_append]
  cases hd : a.data with
  | nil => simp [hd] at h
  | cons x xs => simpa [hd] using h

/-- With a path argument the output never starts with the letter of the
usage line. -/
theorem stdout_head_ne_usage (prog p : String) (rest : List String) (w : World) :
    (main (prog :: p :: rest) w).stdout.data.head? ≠ some 'U' := by
  rcases main_cases (prog :: p :: rest) w with ⟨hl, -⟩ | ⟨prog1, p1, rest1, -, h |
    ⟨e, present, -, h⟩ | h | ⟨e, -, -, h⟩ | ⟨T, e, left, -, -, -, h⟩ | ⟨old, T, -, -, -, h⟩ |
    ⟨T, -, -, -, h⟩⟩
  · simp only [List.length_cons] at hl
    omega
  · rw [h.2]
    exact fun hU => absurd ((head_append _ _ 'E' (head_append "Error: File '" p1 'E'
      (by decide))).symm.trans hU) (by decide)
  · rw [h]
    exact fun hU => absurd ((head_append _ _ 'E' (head_append "Error checking file: " e 'E'
      (by decide))).symm.trans hU) (by decide)
  · rw [h.2]
    exact fun hU => absurd ((head_append _ _ 'E' (head_append "Error: '" p1 'E'
      (by decide))).symm.trans hU) (by decide)
  · rw [h]
    exact fun hU => absurd ((head_append _ _ 'E' (head_append "Error reading clipboard: " e 'E'
      (by decide))).symm.trans hU) (by decide)
  · rw [h]
    exact fun hU => absurd ((head_append _ _ 'E' (head_append "Error writing to file: " e 'E'
      (by decide))).symm.trans hU) (by decide)
  · rw [h]
    exact fun hU => absurd ((head_append _ _ 'S' (head_append "Successfully replaced '" p1 'S'
      (by decide))).symm.trans hU) (by decide)
  · rw [h]
    exact fun hU => absurd ((head_append _ _ 'S' (head_append "Successfully replaced '" p1 'S'
      (by decide))).symm.trans hU) (by decide)

/-- A text made of a part without newline, an inserted part, and a last part
that is one line, is one line exactly when the inserted part holds no
newline. -/
theorem isOneLine_append_iff (a x b : String) (ha : '\n' ∉ a.data) (hb : isOneLine b) :
    isOneLine (a ++ x ++ b) ↔ '\n' ∉ x.data := by
  obtain ⟨hlast, hcount⟩ := hb
  have hne : b.data ≠ [] := by
    intro h0
    simp [h0] at hlast
  have hsum : (a ++ x ++ b).data.count '\n' = x.data.count '\n' + 1 := by
    rw [String.data_append, String.data_append, List.count_append, List.count_append,
      List.count_eq_zero.mpr ha, hcount]
    omega
  constructor
  · intro h
    have h1 := h.2
    rw [hsum] at h1
    exact List.count_eq_zero.mp (by omega)
  · intro hx
    refine ⟨?_, ?_⟩
    · rw [String.data_append, List.getLast?_append_of_ne_nil _ hne]
      exact hlast
    · rw [hsum, List.count_eq_zero.mpr hx]

/-- A text holds each part it is put together from. -/
theorem holds_inserted (a x b : String) : ∃ (pre post : String), a ++ x ++ b = pre ++ x ++ post :=
  ⟨a, b, rfl⟩

/-! ## The claims -/

/-- C1: when the path names a regular file, the clipboard read gives the text
`T` and the write goes through, the file afterwards holds exactly the bytes
of `T` whatever it held before, the output is exactly the success line for
that path, and the exit code is 0. -/
theorem C1_success_replaces_content (prog p : String) (rest : List String) (w : World)
    (old : ByteArray) (T : String)
    (hfile : w.fs p = Lookup.file old) (hclip : w.clipboard = Except.ok T)
    (hwrite : w.writeFault = none) :
    (main (prog :: p :: rest) w).fs p = Lookup.file T.toUTF8 ∧
    (main (prog :: p :: rest) w).stdout =
      "Successfully replaced '" ++ p ++ "' with clipboard content." ++ "\n" ∧
    (main (prog :: p :: rest) w).exitCode = 0 := by
  rw [main_success prog p rest w old T hfile hclip hwrite]
  refine ⟨by simp, ?_, rfl⟩
  show "Successfully replaced '" ++ p ++ "' with clipboard content.\n" = _
  rw [String.append_assoc ("Successfully replaced '" ++ p)]
  rfl

/-- C1 at `notes.txt` holding `old` with the clipboard holding `new data` and
a newline: the file ends up holding exactly that text. -/
theorem C1_success_replaces_content_witness :
    notesWorld.fs "notes.txt" = Lookup.file "old".toUTF8 ∧
    (main ["rpp", "notes.txt"] notesWorld).fs "notes.txt" = Lookup.file "new data\n".toUTF8 ∧
    (main ["rpp", "notes.txt"] notesWorld).stdout =
      "Successfully replaced 'notes.txt' with clipboard content.\n" ∧
    (main ["rpp", "notes.txt"] notesWorld).exitCode = 0 := by
  have h := C1_success_replaces_content "rpp" "notes.txt" [] notesWorld "old".toUTF8
    "new data\n" (by simp [notesWorld]) rfl rfl
  refine ⟨by simp [notesWorld], h.1, ?_, h.2.2⟩
  rw [h.2.1]
  decide

/-- C2: when the path names a regular file and the clipboard read fails, no
write is made and the file system is as before, the output is the clipboard
error line carrying the underlying error, and the exit code is 1. -/
theorem C2_clipboard_error_keeps_file (prog p : String) (rest : List String) (w : World)
    (old : ByteArray) (e : String)
    (hfile : w.fs p = Lookup.file old) (hclip : w.clipboard = Except.error e) :
    (main (prog :: p :: rest) w).fs = w.fs ∧
    (main (prog :: p :: rest) w).fs p = Lookup.file old ∧
    (main (prog :: p :: rest) w).trace = [Effect.stat p, Effect.readClipboard] ∧
    (main (prog :: p :: rest) w).stdout = "Error reading clipboard: " ++ e ++ "\n" ∧
    (main (prog :: p :: rest) w).exitCode = 1 := by
  rw [main_clipboardError prog p rest w e (Or.inr ⟨old, hfile⟩) hclip]
  exact ⟨rfl, hfile, rfl, rfl, rfl⟩

/-- C2 at `notes.txt` with an unreadable clipboard. -/
theorem C2_clipboard_error_keeps_file_witness :
    (main ["rpp", "notes.txt"] lockedWorld).fs "notes.txt" = Lookup.file "old".toUTF8 ∧
    (main ["rpp", "notes.txt"] lockedWorld).stdout =
      "Error reading clipboard: exit status 1\n" ∧
    (main ["rpp", "notes.txt"] lockedWorld).exitCode = 1 := by
  have h := C2_clipboard_error_keeps_file "rpp" "notes.txt" [] lockedWorld "old".toUTF8
    "exit status 1" (by simp [lockedWorld]) rfl
  refine ⟨h.2.1, ?_, h.2.2.2.2⟩
  rw [h.2.2.2.1]
  decide

/-- C3, as stated, fails: nothing exists at `notes.txt/child` when `notes.txt`
is a regular file, yet the metadata query does not report the path as not
existing (it fails because `notes.txt` is not a directory), and the run
prints the metadata error line, not the not-exist line. -/
theorem C3_counterexample :
    Lookup.absent (nestedWorld.fs "notes.txt/child") ∧
    (main ["rpp", "notes.txt/child"] nestedWorld).stdout =
      "Error checking file: stat notes.txt/child: not a directory\n" ∧
    (main ["rpp", "notes.txt/child"] nestedWorld).stdout ≠
      "Error: File 'notes.txt/child' does not exist.\n" := by
  have hfs : nestedWorld.fs "notes.txt/child" =
      Lookup.failure "stat notes.txt/child: not a directory" false := by
    simp [nestedWorld]
  rw [main_failure "rpp" "notes.txt/child" [] nestedWorld _ false hfs, hfs]
  exact ⟨rfl, by decide, by decide⟩

/-- C3, amended: when the path does not exist on disk, whatever the clipboard
holds, the exit code is 1 and nothing is created: only the metadata query
is made, the file system is as before and the path still does not exist.
When the query reports the path as not existing, the output is exactly the
not-exist line with the path inserted as it is; when the query fails for
another reason, the output is the metadata error line carrying the
underlying error. -/
theorem C3_missing_file (prog p : String) (rest : List String) (w : World)
    (habsent : Lookup.absent (w.fs p)) :
    (main (prog :: p :: rest) w).exitCode = 1 ∧
    Lookup.absent ((main (prog :: p :: rest) w).fs p) ∧
    (main (prog :: p :: rest) w).fs = w.fs ∧
    (main (prog :: p :: rest) w).trace = [Effect.stat p] ∧
    (w.fs p = Lookup.notExist →
      (main (prog :: p :: rest) w).stdout =
        "Error: File '" ++ p ++ "' does not exist." ++ "\n" ∧
      (main (prog :: p :: rest) w).fs p = Lookup.notExist) ∧
    (∀ e, w.fs p = Lookup.failure e false →
      (main (prog :: p :: rest) w).stdout = "Error checking file: " ++ e ++ "\n") := by
  cases hfs : w.fs p with
  | notExist =>
    rw [main_notExist prog p rest w hfs]
    refine ⟨rfl, by simpa [hfs] using habsent, rfl, rfl, fun _ => ⟨?_, hfs⟩, fun e he => ?_⟩
    · show "Error: File '" ++ p ++ "' does not exist.\n" = _
      rw [String.append_assoc ("Error: File '" ++ p)]
      rfl
    · simp at he
  | failure e present =>
    rw [main_failure prog p rest w e present hfs]
    refine ⟨rfl, by simpa [hfs] using habsent, rfl, rfl, fun he => ?_, fun e1 he => ?_⟩
    · simp at he
    · simp only [Lookup.failure.injEq] at he
      rw [he.1]
  | dir => simp [hfs, Lookup.absent] at habsent
  | file old => simp [hfs, Lookup.absent] at habsent
  | special => simp [hfs, Lookup.absent] at habsent

/-- C3, amended, at `missing.txt`, with the clipboard unreadable as well. -/
theorem C3_missing_file_witness :
    Lookup.absent (bareWorld.fs "missing.txt") ∧
    (main ["rpp", "missing.txt"] bareWorld).stdout =
      "Error: File 'missing.txt' does not exist.\n" ∧
    (main ["rpp", "missing.txt"] bareWorld).exitCode = 1 ∧
    (main ["rpp", "missing.txt"] bareWorld).fs "missing.txt" = Lookup.notExist := by
  have habsent : Lookup.absent (bareWorld.fs "missing.txt") := trivial
  have h := C3_missing_file "rpp" "missing.txt" [] bareWorld habsent
  refine ⟨habsent, ?_, h.1, (h.2.2.2.2.1 rfl).2⟩
  rw [(h.2.2.2.2.1 rfl).1]
  decide

/-- C4: when the path resolves to a directory, the output is exactly the
is-a-directory line with the path inserted as it is, the exit code is 1, and
no write is made: only the metadata query is made and the file system is as
before. -/
theorem C4_directory (prog p : String) (rest : List String) (w : World)
    (hdir : w.fs p = Lookup.dir) :
    (main (prog :: p :: rest) w).stdout =
      "Error: '" ++ p ++ "' is a directory, not a file." ++ "\n" ∧
    (main (prog :: p :: rest) w).exitCode = 1 ∧
    (main (prog :: p :: rest) w).trace = [Effect.stat p] ∧
    (main (prog :: p :: rest) w).fs = w.fs := by
  rw [main_dir prog p rest w hdir]
  refine ⟨?_, rfl, rfl, rfl⟩
  show "Error: '" ++ p ++ "' is a directory, not a file.\n" = _
  rw [String.append_assoc ("Error: '" ++ p)]
  rfl

/-- C4 at the directory `docs`. -/
theorem C4_directory_witness :
    lockedWorld.fs "docs" = Lookup.dir ∧
    (main ["rpp", "docs"] lockedWorld).stdout = "Error: 'docs' is a directory, not a file.\n" ∧
    (main ["rpp", "docs"] lockedWorld).exitCode = 1 := by
  have h := C4_directory "rpp" "docs" [] lockedWorld rfl
  refine ⟨rfl, ?_, h.2.1⟩
  rw [h.1]
  decide

/-- C5: with no argument after the program name, whatever the files and the
clipboard, the whole output is the usage line, the exit code is 1, no call
to the file system or the clipboard is made and the file system is as
before. -/
theorem C5_no_argument (prog : String) (w : World) :
    (main [prog] w).stdout = "Usage: rpp <filename>" ++ "\n" ∧
    (main [prog] w).exitCode = 1 ∧
    (main [prog] w).trace = [] ∧
    (main [prog] w).fs = w.fs := by
  rw [main_short [prog] w (by simp)]
  exact ⟨rfl, rfl, rfl, rfl⟩

/-- C6, as stated, fails: with two arguments after the program name the run
is not the usage error; the first argument is taken as the path, the file is
written and the exit code is 0. -/
theorem C6_counterexample :
    ["rpp", "notes.txt", "extra.txt"].length - 1 ≠ 1 ∧
    (main ["rpp", "notes.txt", "extra.txt"] notesWorld).stdout ≠ "Usage: rpp <filename>\n" ∧
    (main ["rpp", "notes.txt", "extra.txt"] notesWorld).stdout =
      "Successfully replaced 'notes.txt' with clipboard content.\n" ∧
    (main ["rpp", "notes.txt", "extra.txt"] notesWorld).exitCode = 0 ∧
    (main ["rpp", "notes.txt", "extra.txt"] notesWorld).fs "notes.txt" =
      Lookup.file "new data\n".toUTF8 := by
  rw [main_success "rpp" "notes.txt" ["extra.txt"] notesWorld "old".toUTF8 "new data\n"
    (by simp [notesWorld]) rfl rfl]
  refine ⟨by decide, by decide, by decide, rfl, by simp⟩

/-- C6, amended: the program requires at least one argument after the
program name.  With none (or with an empty argument vector) the run is the
usage error: usage line, exit code 1, no call made and no file written.
With one or more, the first is the path and the others are ignored: the run
is the same as with the first alone, and its output is not the usage line. -/
theorem C6_at_least_one_argument (prog p : String) (rest : List String) (w : World) :
    main [] w = ⟨"Usage: rpp <filename>" ++ "\n", 1, w.fs, []⟩ ∧
    main [prog] w = ⟨"Usage: rpp <filename>" ++ "\n", 1, w.fs, []⟩ ∧
    main (prog :: p :: rest) w = main [prog, p] w ∧
    (main (prog :: p :: rest) w).stdout ≠ "Usage: rpp <filename>" ++ "\n" := by
  refine ⟨main_short [] w (by simp), main_short [prog] w (by simp), ?_, ?_⟩
  · rcases main_cases [prog, p] w with ⟨hl, -⟩ | ⟨prog1, p1, rest1, hargs, h⟩
    · simp at hl
    · simp only [List.cons.injEq] at hargs
      obtain ⟨rfl, rfl, -⟩ := hargs
      rcases h with h | ⟨e, present, hfs, h⟩ | h | ⟨e, hfs, hc, h⟩ |
        ⟨T, e, left, hfs, hc, hw, h⟩ | ⟨old, T, hfs, hc, hw, h⟩ | ⟨T, hfs, hc, hw, h⟩
      · rw [h.2, main_notExist prog p rest w h.1]
      · rw [h, main_failure prog p rest w e present hfs]
      · rw [h.2, main_dir prog p rest w h.1]
      · rw [h, main_clipboardError prog p rest w e hfs hc]
      · rw [h, main_writeError prog p rest w T e left hfs hc hw]
      · rw [h, main_success prog p rest w old T hfs hc hw]
      · rw [h, main_success_special prog p rest w T hfs hc hw]
  · intro hU
    apply stdout_head_ne_usage prog p rest w
    rw [hU]
    decide

/-- C6, amended, at `notes.txt` followed by a second argument: the run is the
run on `notes.txt` alone. -/
theorem C6_at_least_one_argument_witness :
    main ["rpp", "notes.txt", "extra.txt"] notesWorld = main ["rpp", "notes.txt"] notesWorld ∧
    (main ["rpp"] notesWorld).exitCode = 1 :=
  ⟨(C6_at_least_one_argument "rpp" "notes.txt" ["extra.txt"] notesWorld).2.2.1,
    congrArg Outcome.exitCode (C6_at_least_one_argument "rpp" "notes.txt" [] notesWorld).2.1⟩

/-- C7: two runs in succession on a regular file, the clipboard holding `T`
in both and both succeeding (the second starts from the files the first
left, with the same names for the same objects): the file holds exactly the
bytes of `T` after the first run and after the second, and the second run
leaves the file system as the first left it. -/
theorem C7_idempotent (prog p : String) (rest : List String) (w1 w2 : World)
    (old : ByteArray) (T : String)
    (hfile : w1.fs p = Lookup.file old)
    (hclip1 : w1.clipboard = Except.ok T) (hclip2 : w2.clipboard = Except.ok T)
    (hseq : w2.fs = (main (prog :: p :: rest) w1).fs)
    (hlink : w2.link = w1.link)
    (hok1 : (main (prog :: p :: rest) w1).exitCode = 0)
    (hok2 : (main (prog :: p :: rest) w2).exitCode = 0) :
    (main (prog :: p :: rest) w1).fs p = Lookup.file T.toUTF8 ∧
    (main (prog :: p :: rest) w2).fs p = Lookup.file T.toUTF8 ∧
    (main (prog :: p :: rest) w2).fs = (main (prog :: p :: rest) w1).fs := by
  obtain ⟨prog1, p1, rest1, T1, hargs1, -, -, hw1⟩ :=
    (exitCode_zero_iff (prog :: p :: rest) w1).mp hok1
  obtain ⟨prog2, p2, rest2, T2, hargs2, -, -, hw2⟩ :=
    (exitCode_zero_iff (prog :: p :: rest) w2).mp hok2
  have h1 := main_success prog p rest w1 old T hfile hclip1 hw1
  rw [h1] at hseq
  have hfs2 : w2.fs p = Lookup.file T.toUTF8 := by simp [hseq]
  have h2 := main_success prog p rest w2 T.toUTF8 T hfs2 hclip2 hw2
  rw [h1, h2]
  refine ⟨by simp, by simp, ?_⟩
  funext q
  by_cases hq : w1.link q = w1.link p
  · simp [hq, hlink]
  · simp [hq, hlink, hseq]

/-- C7 at `notes.txt`, run twice with the clipboard holding `new data` and a
newline. -/
theorem C7_idempotent_witness :
    (main ["rpp", "notes.txt"] notesWorld).fs "notes.txt" = Lookup.file "new data\n".toUTF8 ∧
    (main ["rpp", "notes.txt"] notesWorldAfter).fs "notes.txt" =
      Lookup.file "new data\n".toUTF8 ∧
    (main ["rpp", "notes.txt"] notesWorldAfter).fs = (main ["rpp", "notes.txt"] notesWorld).fs := by
  have hfile : notesWorld.fs "notes.txt" = Lookup.file "old".toUTF8 := by simp [notesWorld]
  have h1 := main_success "rpp" "notes.txt" [] notesWorld "old".toUTF8 "new data\n" hfile rfl rfl
  have hfile2 : notesWorldAfter.fs "notes.txt" = Lookup.file "new data\n".toUTF8 := by
    simp [notesWorldAfter, h1]
  have h2 := main_success "rpp" "notes.txt" [] notesWorldAfter "new data\n".toUTF8 "new data\n"
    hfile2 rfl rfl
  exact C7_idempotent "rpp" "notes.txt" [] notesWorld notesWorldAfter "old".toUTF8 "new data\n"
    hfile rfl rfl rfl rfl (by rw [h1]) (by rw [h2])

/-- C9: the run prints the message of the earliest failing step and makes no
call of a later step, whatever the later steps would do.  Without a path
argument: the usage line and no call.  With a path that fails the existence
and type check (missing, metadata failure, directory): that message, and
the metadata query is the only call.  With a file (regular or special) and
a failing clipboard read: the clipboard message, and no write.  With a
failing write: the write message.  Each time the output is exactly that one
message and the exit code is 1; and every run that exits 1 is one of
these. -/
theorem C9_first_error_only (args : List String) (w : World) :
    (args.length < 2 →
      (main args w).stdout = "Usage: rpp <filename>" ++ "\n" ∧ (main args w).trace = [] ∧
      (main args w).exitCode = 1) ∧
    (∀ p, args[1]? = some p →
      (w.fs p = Lookup.notExist →
        (main args w).stdout = "Error: File '" ++ p ++ "' does not exist.\n" ∧
        (main args w).trace = [Effect.stat p] ∧ (main args w).exitCode = 1) ∧
      (∀ e present, w.fs p = Lookup.failure e present →
        (main args w).stdout = "Error checking file: " ++ e ++ "\n" ∧
        (main args w).trace = [Effect.stat p] ∧ (main args w).exitCode = 1) ∧
      (w.fs p = Lookup.dir →
        (main args w).stdout = "Error: '" ++ p ++ "' is a directory, not a file.\n" ∧
        (main args w).trace = [Effect.stat p] ∧ (main args w).exitCode = 1) ∧
      (∀ e, (w.fs p = Lookup.special ∨ ∃ old, w.fs p = Lookup.file old) →
        w.clipboard = Except.error e →
        (main args w).stdout = "Error reading clipboard: " ++ e ++ "\n" ∧
        (main args w).trace = [Effect.stat p, Effect.readClipboard] ∧
        (main args w).exitCode = 1) ∧
      (∀ T e left, (w.fs p = Lookup.special ∨ ∃ old, w.fs p = Lookup.file old) →
        w.clipboard = Except.ok T → w.writeFault = some (e, left) →
        (main args w).stdout = "Error writing to file: " ++ e ++ "\n" ∧
        (main args w).trace =
          [Effect.stat p, Effect.readClipboard, Effect.writeFile p T.toUTF8 0o644] ∧
        (main args w).exitCode = 1)) ∧
    ((main args w).exitCode = 1 →
      args.length < 2 ∨ ∃ p, args[1]? = some p ∧
        (w.fs p = Lookup.notExist ∨ (∃ e present, w.fs p = Lookup.failure e present) ∨
         w.fs p = Lookup.dir ∨
         (∃ e, (w.fs p = Lookup.special ∨ ∃ old, w.fs p = Lookup.file old) ∧
            w.clipboard = Except.error e) ∨
         (∃ T e left, (w.fs p = Lookup.special ∨ ∃ old, w.fs p = Lookup.file old) ∧
            w.clipboard = Except.ok T ∧ w.writeFault = some (e, left)))) := by
  refine ⟨fun hl => ?_, fun p hp => ?_, fun hfail => ?_⟩
  · rw [main_short args w hl]
    exact ⟨rfl, rfl, rfl⟩
  · rcases args with _ | ⟨prog, _ | ⟨p1, rest⟩⟩
    · simp at hp
    · simp at hp
    · simp at hp
      subst hp
      refine ⟨fun hfs => ?_, fun e present hfs => ?_, fun hfs => ?_, fun e hfs hc => ?_,
        fun T e left hfs hc hw => ?_⟩
      · rw [main_notExist prog p1 rest w hfs]
        exact ⟨rfl, rfl, rfl⟩
      · rw [main_failure prog p1 rest w e present hfs]
        exact ⟨rfl, rfl, rfl⟩
      · rw [main_dir prog p1 rest w hfs]
        exact ⟨rfl, rfl, rfl⟩
      · rw [main_clipboardError prog p1 rest w e hfs hc]
        exact ⟨rfl, rfl, rfl⟩
      · rw [main_writeError prog p1 rest w T e left hfs hc hw]
        exact ⟨rfl, rfl, rfl⟩
  · rcases main_cases args w with ⟨hl, -⟩ | ⟨prog, p, rest, rfl, h | ⟨e, present, hfs, -⟩ | h |
      ⟨e, hfs, hc, -⟩ | ⟨T, e, left, hfs, hc, hw, -⟩ | ⟨old, T, -, -, -, h⟩ | ⟨T, -, -, -, h⟩⟩
    · exact Or.inl hl
    · exact Or.inr ⟨p, by simp, Or.inl h.1⟩
    · exact Or.inr ⟨p, by simp, Or.inr (Or.inl ⟨e, present, hfs⟩)⟩
    · exact Or.inr ⟨p, by simp, Or.inr (Or.inr (Or.inl h.1))⟩
    · exact Or.inr ⟨p, by simp, Or.inr (Or.inr (Or.inr (Or.inl ⟨e, hfs, hc⟩)))⟩
    · exact Or.inr ⟨p, by simp, Or.inr (Or.inr (Or.inr (Or.inr ⟨T, e, left, hfs, hc, hw⟩)))⟩
    · rw [h] at hfail
      simp at hfail
    · rw [h] at hfail
      simp at hfail

/-- C9 on a missing path with the clipboard unreadable and the disk full: the
one message is the not-exist line, and neither the clipboard nor the write
is reached. -/
theorem C9_first_error_only_witness :
    bareWorld.clipboard = Except.error "exit status 1" ∧
    bareWorld.writeFault = some ("no space left on device", Lookup.notExist) ∧
    (main ["rpp", "missing.txt"] bareWorld).stdout =
      "Error: File '" ++ "missing.txt" ++ "' does not exist.\n" ∧
    (main ["rpp", "missing.txt"] bareWorld).trace = [Effect.stat "missing.txt"] ∧
    (main ["rpp", "missing.txt"] bareWorld).exitCode = 1 :=
  ⟨rfl, rfl, ((C9_first_error_only ["rpp", "missing.txt"] bareWorld).2.1 "missing.txt" rfl).1 rfl⟩

/-- C10, as stated, fails: a path argument may hold a newline, and it is put
into the message as it is; the run exits 1 and its output is two lines. -/
theorem C10_counterexample :
    (main ["rpp", "a\nb"] bareWorld).exitCode = 1 ∧
    (main ["rpp", "a\nb"] bareWorld).stdout = "Error: File 'a\nb' does not exist.\n" ∧
    (main ["rpp", "a\nb"] bareWorld).stdout.data.count '\n' = 2 ∧
    ¬ isOneLine (main ["rpp", "a\nb"] bareWorld).stdout := by
  rw [main_notExist "rpp" "a\nb" [] bareWorld rfl]
  exact ⟨rfl, by decide, by decide, by decide⟩

/-- C10, amended: every run that exits 1 is in one of the following cases,
and in each its output is a single line (it ends with a newline and holds no
other) exactly when the text put into the message holds no newline.  Usage
error: nothing is put in, the output is one line.  Not-found and
is-a-directory: the path argument is put in, and the output holds it.
Metadata error, clipboard error, write error: the underlying error text is
put in. -/
theorem C10_one_line_message (args : List String) (w : World)
    (hfail : (main args w).exitCode = 1) :
    (args.length < 2 ∧ isOneLine (main args w).stdout) ∨
    ∃ p, args[1]? = some p ∧
      (((w.fs p = Lookup.notExist ∨ w.fs p = Lookup.dir) ∧
          (isOneLine (main args w).stdout ↔ '\n' ∉ p.data) ∧
          ∃ (pre post : String), (main args w).stdout = pre ++ p ++ post) ∨
       (∃ e present, w.fs p = Lookup.failure e present ∧
          (isOneLine (main args w).stdout ↔ '\n' ∉ e.data)) ∨
       (∃ e, (w.fs p = Lookup.special ∨ ∃ old, w.fs p = Lookup.file old) ∧
          w.clipboard = Except.error e ∧
          (isOneLine (main args w).stdout ↔ '\n' ∉ e.data)) ∨
       (∃ T e left, (w.fs p = Lookup.special ∨ ∃ old, w.fs p = Lookup.file old) ∧
          w.clipboard = Except.ok T ∧ w.writeFault = some (e, left) ∧
          (isOneLine (main args w).stdout ↔ '\n' ∉ e.data))) := by
  rcases main_cases args w with ⟨hl, h⟩ | ⟨prog, p, rest, rfl, h | ⟨e, present, hfs, h⟩ | h |
    ⟨e, hfs, hc, h⟩ | ⟨T, e, left, hfs, hc, hw, h⟩ | ⟨old, T, -, -, -, h⟩ | ⟨T, -, -, -, h⟩⟩
  · refine Or.inl ⟨hl, ?_⟩
    rw [h]
    show isOneLine ("Usage: rpp <filename>" ++ "\n")
    decide
  · refine Or.inr ⟨p, by simp, Or.inl ⟨Or.inl h.1, ?_, ?_⟩⟩
    · rw [h.2]
      exact isOneLine_append_iff _ _ _ (by decide) (by decide)
    · rw [h.2]
      exact holds_inserted _ _ _
  · refine Or.inr ⟨p, by simp, Or.inr (Or.inl ⟨e, present, hfs, ?_⟩)⟩
    rw [h]
    exact isOneLine_append_iff _ _ _ (by decide) (by decide)
  · refine Or.inr ⟨p, by simp, Or.inl ⟨Or.inr h.1, ?_, ?_⟩⟩
    · rw [h.2]
      exact isOneLine_append_iff _ _ _ (by decide) (by decide)
    · rw [h.2]
      exact holds_inserted _ _ _
  · refine Or.inr ⟨p, by simp, Or.inr (Or.inr (Or.inl ⟨e, hfs, hc, ?_⟩))⟩
    rw [h]
    exact isOneLine_append_iff _ _ _ (by decide) (by decide)
  · refine Or.inr ⟨p, by simp, Or.inr (Or.inr (Or.inr ⟨T, e, left, hfs, hc, hw, ?_⟩))⟩
    rw [h]
    exact isOneLine_append_iff _ _ _ (by decide) (by decide)
  · rw [h] at hfail
    simp at hfail
  · rw [h] at hfail
    simp at hfail

/-- C10, amended, at the missing path `missing.txt`, with a clipboard error
and a write failure that are never printed: the output is one line and
holds the path. -/
theorem C10_one_line_message_witness :
    (main ["rpp", "missing.txt"] bareWorld).exitCode = 1 ∧
    isOneLine (main ["rpp", "missing.txt"] bareWorld).stdout ∧
    ∃ (pre post : String),
      (main ["rpp", "missing.txt"] bareWorld).stdout = pre ++ "missing.txt" ++ post := by
  have hfail : (main ["rpp", "missing.txt"] bareWorld).exitCode = 1 := by
    rw [main_notExist "rpp" "missing.txt" [] bareWorld rfl]
  refine ⟨hfail, ?_⟩
  rcases C10_one_line_message ["rpp", "missing.txt"] bareWorld hfail with
    ⟨hl, -⟩ | ⟨p, hp, ⟨-, hline, hholds⟩ | ⟨e, present, hfs, -⟩ | ⟨e, hfs, -⟩ |
      ⟨T, e, left, hfs, -⟩⟩
  · simp at hl
  · simp only [List.getElem?_cons_succ, List.getElem?_cons_zero, Option.some.injEq] at hp
    subst hp
    exact ⟨hline.mpr (by decide), hholds⟩
  · simp [bareWorld] at hfs
  · simp [bareWorld] at hfs
  · simp [bareWorld] at hfs

end Rpp
